import Mathlib

/-!
Verification of the aiida-chemshell plugin core: a shallow embedding of
`src/aiida_chemshell/calculations.py` (input validation, script generation,
submission preparation) and `src/aiida_chemshell/parsers.py` (output parsing),
together with theorems settling the specification claims.

Python dictionaries are modelled as insertion-ordered association lists,
Python runtime values as the inductive `PyVal`, Python exceptions as `PyExc`,
and the structured content of every validation error message as `VErr`.
-/

namespace AiidaChemShell

/-- Python runtime values as they occur in AiiDA `Dict` nodes and in the
parsed JSON results artifact.  Floats are modelled as exact rationals
(no claim depends on IEEE-754 rounding); `bool` is kept distinct from `int`
because `isinstance` checks distinguish them. -/
inductive PyVal where
  | int (n : Int)
  | float (q : Rat)
  | bool (b : Bool)
  | str (s : String)
  | list (l : List PyVal)
  | tuple (l : List PyVal)
  | pydict (d : List (String × PyVal))
  | pynone

/-- A Python dict with string keys, in insertion order (Python dicts preserve
insertion order and have no duplicate keys). -/
abbrev PyDict := List (String × PyVal)

/-- Python exceptions that the embedded code can raise. -/
inductive PyExc where
  | attributeError
  | keyError
  | typeError
  | indexError
  | valueError
deriving Repr, DecidableEq

/-- Models `d.get(k)` / `d[k]` lookup on a Python dict (first match). -/
def pyLookup (d : List (String × PyVal)) (k : String) : Option PyVal :=
  match d with
  | [] => none
  | (k', v) :: rest => if k' = k then some v else pyLookup rest k

/-- Models `d.get(k, default)`. -/
def pyGetD (d : PyDict) (k : String) (dflt : PyVal) : PyVal :=
  (pyLookup d k).getD dflt

/-- Models `d.keys()` (in insertion order). -/
def pyKeys (d : PyDict) : List String := d.map Prod.fst

/-- Models `k in d` for a Python dict. -/
def pyHasKey (d : PyDict) (k : String) : Bool := (pyLookup d k).isSome

/-- Models `s.upper()` (the inputs are ASCII identifiers, for which Python's
`str.upper` agrees with per-character ASCII uppercasing). -/
def pyUpper (s : String) : String := String.mk (s.data.map Char.toUpper)

/-- Renders an integer the way Python `str()` does. -/
def intStr (n : Int) : String := toString n

/-- Renders a float literal.  Python prints the shortest decimal `repr` of the
IEEE double; we model floats as exact rationals and print integral values the
Python way (`10.0`) and other rationals as `num/den`.  No claim inspects the
rendered text of a non-integral float. -/
def floatStr (q : Rat) : String :=
  if q.den = 1 then toString q.num ++ ".0"
  else toString q.num ++ "/" ++ toString q.den

mutual

/-- Models Python `str(v)` (`asRepr = false`) and `repr(v)` (`asRepr = true`);
they differ only on strings, which `repr` quotes.  Containers render their
elements with `repr`, exactly as Python does. -/
def pyRender (asRepr : Bool) : PyVal → String
  | .int n => intStr n
  | .float q => floatStr q
  | .bool b => if b then "True" else "False"
  | .str s => if asRepr then "'" ++ s ++ "'" else s
  | .list l => "[" ++ pyRenderList l ++ "]"
  | .tuple l => "(" ++ pyRenderList l ++ (if l.length = 1 then ",)" else ")")
  | .pydict d => "\x7b" ++ pyRenderPairs d ++ "\x7d"
  | .pynone => "None"

/-- Comma-separated `repr` rendering of list/tuple elements. -/
def pyRenderList : List PyVal → String
  | [] => ""
  | [v] => pyRender true v
  | v :: rest => pyRender true v ++ ", " ++ pyRenderList rest

/-- Comma-separated `repr` rendering of dict entries. -/
def pyRenderPairs : List (String × PyVal) → String
  | [] => ""
  | [(k, v)] => "'" ++ k ++ "': " ++ pyRender true v
  | (k, v) :: rest => "'" ++ k ++ "': " ++ pyRender true v ++ ", " ++ pyRenderPairs rest

end

/-- Models Python `str(v)`. -/
def pyStr (v : PyVal) : String := pyRender false v

/-- Models `isinstance(v, str)`. -/
def isStr : PyVal → Bool
  | .str _ => true
  | _ => false

/-- Models `isinstance(v, bool)`. -/
def isBool : PyVal → Bool
  | .bool _ => true
  | _ => false

/-- Models `isinstance(v, int)`; in Python `bool` is a subclass of `int`. -/
def isInt : PyVal → Bool
  | .int _ => true
  | .bool _ => true
  | _ => false

/-- Models `isinstance(v, float)` (a Python `bool`/`int` is not a `float`). -/
def isFloat : PyVal → Bool
  | .float _ => true
  | _ => false

/-- Models `isinstance(v, dict)`. -/
def isDict : PyVal → Bool
  | .pydict _ => true
  | _ => false

/-- Models `isinstance(v, list | tuple)`. -/
def isListOrTuple : PyVal → Bool
  | .list _ => true
  | .tuple _ => true
  | _ => false

/-- An `isinstance` check against a schema entry; it can itself raise
(`isinstance` with a parameterized generic raises `TypeError`). -/
abbrev IsinstanceChk := PyVal → Except PyExc Bool

/-- Lifts a boolean class test to an `IsinstanceChk`. -/
def chk (f : PyVal → Bool) : IsinstanceChk := fun v => .ok (f v)

/-- Models `isinstance(v, A | B[T])` where one union member is a parameterized
generic such as `tuple[str]` or `list[str]`: CPython raises
`TypeError: isinstance() argument 2 cannot contain a parameterized generic`
before testing any member. -/
def chkParamGeneric : IsinstanceChk := fun _ => .error .typeError

/-- The `ChemShellQMTheory` enumeration from `utils.py`. -/
inductive ChemShellQMTheory where
  | NONE | CASTEP | CP2K | DFTBP | FHI_AIMS | GAMESS_UK | GAUSSIAN
  | LSDALTON | MNDO | MOLPRO | NWCHEM | ORCA | PYSCF | TURBOMOLE
deriving Repr, DecidableEq

/-- The `ChemShellMMTheory` enumeration from `utils.py`. -/
inductive ChemShellMMTheory where
  | NONE | DL_POLY | GULP | NAMD
deriving Repr, DecidableEq

/-- Member names of `ChemShellQMTheory` (`__members__`). -/
def qmTheoryMembers : List String :=
  ["NONE", "CASTEP", "CP2K", "DFTBP", "FHI_AIMS", "GAMESS_UK", "GAUSSIAN",
   "LSDALTON", "MNDO", "MOLPRO", "NWCHEM", "ORCA", "PYSCF", "TURBOMOLE"]

/-- Member names of `ChemShellMMTheory` (`__members__`). -/
def mmTheoryMembers : List String := ["NONE", "DL_POLY", "GULP", "NAMD"]

/-- Models `ChemShellQMTheory[name]` (member access by name; `none` models the
`KeyError` raised for an unknown name). -/
def qmTheoryOfMember (s : String) : Option ChemShellQMTheory :=
  if s = "NONE" then some .NONE
  else if s = "CASTEP" then some .CASTEP
  else if s = "CP2K" then some .CP2K
  else if s = "DFTBP" then some .DFTBP
  else if s = "FHI_AIMS" then some .FHI_AIMS
  else if s = "GAMESS_UK" then some .GAMESS_UK
  else if s = "GAUSSIAN" then some .GAUSSIAN
  else if s = "LSDALTON" then some .LSDALTON
  else if s = "MNDO" then some .MNDO
  else if s = "MOLPRO" then some .MOLPRO
  else if s = "NWCHEM" then some .NWCHEM
  else if s = "ORCA" then some .ORCA
  else if s = "PYSCF" then some .PYSCF
  else if s = "TURBOMOLE" then some .TURBOMOLE
  else none

/-- Models `ChemShellMMTheory[name]`. -/
def mmTheoryOfMember (s : String) : Option ChemShellMMTheory :=
  if s = "NONE" then some .NONE
  else if s = "DL_POLY" then some .DL_POLY
  else if s = "GULP" then some .GULP
  else if s = "NAMD" then some .NAMD
  else none

/-- `ChemShellCalculation.get_qm_theory_key` (calculations.py lines 505-548);
the `match` has no `NONE` case and falls through to `return ""`. -/
def get_qm_theory_key : ChemShellQMTheory → String
  | .CASTEP => "CASTEP"
  | .CP2K => "CP2K"
  | .DFTBP => "DFTBplus"
  | .FHI_AIMS => "FHIaims"
  | .GAMESS_UK => "GAMESS_UK"
  | .GAUSSIAN => "Gaussian"
  | .LSDALTON => "LSDalton"
  | .MNDO => "MNDO"
  | .MOLPRO => "Molpro"
  | .NWCHEM => "NWChem"
  | .ORCA => "ORCA"
  | .PYSCF => "PySCF"
  | .TURBOMOLE => "TURBOMOLE"
  | .NONE => ""

/-- `ChemShellCalculation.get_mm_theory_key` (calculations.py lines 550-572). -/
def get_mm_theory_key : ChemShellMMTheory → String
  | .DL_POLY => "DL_POLY"
  | .GULP => "GULP"
  | .NAMD => "NAMD"
  | .NONE => ""

/-- Filename constant `ChemShellCalculation.FILE_SCRIPT`. -/
def FILE_SCRIPT : String := "chemshell_input.py"

/-- Filename constant `ChemShellCalculation.FILE_STDOUT`. -/
def FILE_STDOUT : String := "output.log"

/-- Filename constant `ChemShellCalculation.FILE_DLFIND`. -/
def FILE_DLFIND : String := "_dl_find.pun"

/-- Filename constant `ChemShellCalculation.FILE_TMP_STRUCTURE`. -/
def FILE_TMP_STRUCTURE : String := "input_structure.xyz"

/-- Filename constant `ChemShellCalculation.FILE_RESULTS`. -/
def FILE_RESULTS : String := "result.json"

/-- The structured content of each validation error message returned by the
validators in `calculations.py`; each constructor records exactly the data
interpolated into the corresponding message string. -/
inductive VErr where
  | invalidStructureFile
  | invalidQmTheory (theory : String)
  | invalidMmTheory (theory : String)
  | invalidKeys (invalid : List String) (valid : List String)
  | invalidType (key : String)
  | gradientsNotBool
  | hessianNotBool
  | invalidMethod (method : String)
  | invalidScftype
deriving Repr, DecidableEq

/-- The `structure` input: either a `SinglefileData` (carrying a filename) or
a `StructureData` object. -/
inductive StructureInput where
  | singlefile (filename : String)
  | structuredata
deriving Repr, DecidableEq

/-- Models Python's negative-start slice `s[-n:]` (the whole string when
`s` is shorter than `n` characters). -/
def pySliceLast (s : String) (n : Nat) : String :=
  String.mk (s.data.drop (s.data.length - n))

/-- `ChemShellCalculation.validate_structure_file` (calculations.py lines
163-188): a `SinglefileData` filename must end in `.xyz`, `.pun` (checked via
`filename[-4:]`) or `.cjson` (checked via `filename[-6:]`). -/
def validate_structure_file : StructureInput → Option VErr
  | .singlefile fn =>
    if pySliceLast fn 4 ∈ [".xyz", ".pun"] then none
    else if pySliceLast fn 6 = ".cjson" then none
    else some .invalidStructureFile
  | .structuredata => none

/-- `ChemShellCalculation.get_valid_calculation_parameter_keys`. -/
def get_valid_calculation_parameter_keys : List String := ["gradients", "hessian"]

/-- `ChemShellCalculation.validate_calculation_parameters` (lines 202-235). -/
def validate_calculation_parameters (value : PyDict) : Option VErr :=
  let invalid := (pyKeys value).filter
    (fun k => decide (k ∉ get_valid_calculation_parameter_keys))
  if ¬ invalid.isEmpty then
    some (.invalidKeys invalid get_valid_calculation_parameter_keys)
  else if pyHasKey value "gradients" ∧ ¬ isBool (pyGetD value "gradients" .pynone) then
    some .gradientsNotBool
  else if pyHasKey value "hessian" ∧ ¬ isBool (pyGetD value "hessian" .pynone) then
    some .hessianNotBool
  else none

/-- `ChemShellCalculation.get_valid_optimisation_parameter_keys`. -/
def get_valid_optimisation_parameter_keys : List String :=
  ["maxcycle", "maxene", "coordinates", "algorithm", "trust_radius", "maxstep",
   "tolerance", "neb", "nimages", "nebk", "dimer", "delta", "tsrelative"]

/-- `ChemShellCalculation.validate_optimisation_parameters` (lines 265-293);
only the keys are checked (the value types are an open TODO in the source). -/
def validate_optimisation_parameters (value : PyDict) : Option VErr :=
  let invalid := (pyKeys value).filter
    (fun k => decide (k ∉ get_valid_optimisation_parameter_keys))
  if ¬ invalid.isEmpty then
    some (.invalidKeys invalid get_valid_optimisation_parameter_keys)
  else none

/-- `ChemShellCalculation.get_valid_qm_paramater_keys` (lines 295-322): the
allowed QM option keys with their `isinstance` schema. -/
def get_valid_qm_paramater_keys : List (String × IsinstanceChk) :=
  [("theory", chk isStr),
   ("method", chk isStr),
   ("basis", chk isStr),
   ("charge", chk (fun v => isFloat v || isInt v)),
   ("functional", chk isStr),
   ("mult", chk (fun v => isInt v || isFloat v)),
   ("scftype", chk isStr),
   ("damping", chk isBool),
   ("diis", chk isBool),
   ("direct", chk isBool),
   ("guess", chk isStr),
   ("maxiter", chk isInt),
   ("path", chk isStr),
   ("pseudopotential", chk (fun v => isStr v || isDict v)),
   ("restart", chk isBool),
   ("scf", chk isFloat)]

/-- `ChemShellCalculation.get_valid_mm_paramater_keys` (lines 376-466),
keyed by the already-uppercased theory name.  `input` for `DL_POLY`
(`str | tuple[str]`) and `par` for `NAMD` (`str | list[str]`) use parameterized
generics, on which `isinstance` raises `TypeError`. -/
def get_valid_mm_paramater_keys (theory : String) : List (String × IsinstanceChk) :=
  if theory = "DL_POLY" then
    [("theory", chk isStr),
     ("input", chkParamGeneric),
     ("output", chk isStr),
     ("berendsen", chk isFloat),
     ("delr", chk isFloat),
     ("densvar", chk isInt),
     ("dl_field_charges", chk isBool),
     ("dl_field_types", chk isBool),
     ("equilibration", chk isInt),
     ("ewald", chk isFloat),
     ("potential", chk isBool),
     ("print", chk isInt),
     ("rcut", chk isFloat),
     ("rpad", chk isFloat),
     ("rvdw", chk isFloat),
     ("scale", chk isInt),
     ("steps", chk isInt),
     ("stack", chk isInt),
     ("restart", chk isStr),
     ("timestep", chk isFloat)]
  else if theory = "GULP" then
    [("theory", chk isStr),
     ("input", chk isStr),
     ("output", chk isStr),
     ("molecule", chk isBool),
     ("conjugate", chk isBool)]
  else if theory = "NAMD" then
    [("theory", chk isStr),
     ("input", chk isStr),
     ("output", chk isStr),
     ("binary", chk isBool),
     ("coor", chk isStr),
     ("margin", chk isFloat),
     ("par", chkParamGeneric),
     ("pdb", chk isStr),
     ("prefix", chk isStr),
     ("prefix_restart", chk isStr),
     ("psf", chk isStr),
     ("psfgen_options", chk isDict),
     ("vel", chk isStr),
     ("xsc", chk isStr),
     ("xst", chk isStr),
     ("cutoff", chk isFloat),
     ("exclude", chk isStr),
     ("ff_dir", chk isStr),
     ("freq_nonbonded", chk isInt),
     ("freq_full_elect", chk isInt),
     ("merge_cross", chk isBool),
     ("pairlist_dist", chk isFloat),
     ("scaling14", chk isFloat),
     ("switching", chk isBool),
     ("switch_dist", chk isFloat),
     ("nsteps_per_cycle", chk isInt),
     ("seed", chk isInt),
     ("constraints", chk isStr),
     ("constraints_ref", chk isStr),
     ("fixed_atoms", chk isStr),
     ("fixed_atoms_forces", chk isBool),
     ("constant_area", chk isBool),
     ("flexible_cell", chk isBool),
     ("group_pressure", chk isBool),
     ("pme", chk isBool),
     ("pme_grid_sizes", chk isListOrTuple),
     ("wrap_all", chk isBool),
     ("wrap_water", chk isBool)]
  else
    [("theory", chk isStr), ("input", chk isStr), ("output", chk isStr)]

/-- The `for key, val in value.items(): if not isinstance(val, valid_keys[key])`
loop shared by `validate_qm_parameters` and `validate_mm_parameters`: returns
the first key whose value fails its `isinstance` check (`some key`), `none`
when every entry passes, or propagates an exception raised by `isinstance`. -/
def typeCheckLoop (schema : List (String × IsinstanceChk)) :
    PyDict → Except PyExc (Option String)
  | [] => .ok none
  | (k, v) :: rest =>
    match (schema.find? (fun p => p.1 == k)).map Prod.snd with
    | none => .error .keyError
    | some c =>
      match c v with
      | .error e => .error e
      | .ok true => typeCheckLoop schema rest
      | .ok false => .ok (some k)

/-- The trailing closed-value check on `scftype` in `validate_qm_parameters`
(lines 368-372): the uppercased value must be one of the six allowed SCF
types.  A non-string value would crash `.upper()`, but the type check has
already guaranteed a string. -/
def scftypeCheck (value : PyDict) : Except PyExc (Option VErr) :=
  match pyLookup value "scftype" with
  | some (.str s) =>
    if pyUpper s ∈ ["RHF", "UHF", "ROHF", "RKS", "UKS", "ROKS"] then .ok none
    else .ok (some .invalidScftype)
  | some _ => .error .attributeError
  | none => .ok none

/-- `ChemShellCalculation.validate_qm_parameters` (lines 324-374).  Checks, in
order: the theory interface name (uppercased) is a `ChemShellQMTheory` member;
no unknown option keys; each value passes its `isinstance` schema check; the
closed-value options `method` and `scftype` (uppercase compare).  Exceptions:
`.upper()` on a non-string theory value raises `AttributeError`; when the
theory name is invalid and the `theory` key is absent, formatting `None` with
`:s` in the error message raises `TypeError`. -/
def validate_qm_parameters (value : PyDict) : Except PyExc (Option VErr) :=
  match pyGetD value "theory" (.str "") with
  | .str ts =>
    if pyUpper ts ∈ qmTheoryMembers then
      let validNames := (get_valid_qm_paramater_keys).map Prod.fst
      let invalid := (pyKeys value).filter (fun k => decide (k ∉ validNames))
      if ¬ invalid.isEmpty then .ok (some (.invalidKeys invalid validNames))
      else
        match typeCheckLoop get_valid_qm_paramater_keys value with
        | .error e => .error e
        | .ok (some k) => .ok (some (.invalidType k))
        | .ok none =>
          match pyLookup value "method" with
          | some (.str m) =>
            if pyUpper m ∈ ["HF", "DFT"] then scftypeCheck value
            else .ok (some (.invalidMethod (pyUpper m)))
          | some _ => .error .attributeError
          | none => scftypeCheck value
    else
      match pyLookup value "theory" with
      | some (.str t) => .ok (some (.invalidQmTheory t))
      | some _ => .error .attributeError
      | none => .error .typeError
  | _ => .error .attributeError

/-- `ChemShellCalculation.validate_mm_parameters` (lines 468-503).  Checks the
uppercased theory name against `ChemShellMMTheory`, then unknown keys against
the theory-specific schema, then the `isinstance` type loop. -/
def validate_mm_parameters (value : PyDict) : Except PyExc (Option VErr) :=
  match pyGetD value "theory" (.str "") with
  | .str ts =>
    let theory := pyUpper ts
    if theory ∈ mmTheoryMembers then
      let validKeys := get_valid_mm_paramater_keys theory
      let validNames := validKeys.map Prod.fst
      let invalid := (pyKeys value).filter (fun k => decide (k ∉ validNames))
      if ¬ invalid.isEmpty then .ok (some (.invalidKeys invalid validNames))
      else
        match typeCheckLoop validKeys value with
        | .error e => .error e
        | .ok (some k) => .ok (some (.invalidType k))
        | .ok none => .ok none
    else .ok (some (.invalidMmTheory theory))
  | _ => .error .attributeError

/-- The full set of inputs of one `ChemShellCalculation` job, as declared by
`ChemShellCalculation.define` (lines 27-161).  Optional ports are `Option`;
the `force_field_file` carries only its filename (the content is opaque). -/
structure CalculationConfig where
  structure_input : StructureInput
  calculation_parameters : Option PyDict := none
  optimisation_parameters : Option PyDict := none
  qm_parameters : Option PyDict := none
  mm_parameters : Option PyDict := none
  force_field_file : Option String := none
  qmmm_parameters : Option PyDict := none

/-- Models the AiiDA input-validation pass: each provided input is checked by
the validator attached to its port in `ChemShellCalculation.define`; absent
optional inputs are not validated, and `qmmm_parameters` as well as
`force_field_file` have no validator at all.  Returns the first validation
error, `none` when every provided input passes, or propagates an exception
raised inside a validator. -/
def validateConfig (c : CalculationConfig) : Except PyExc (Option VErr) := do
  if let some e := validate_structure_file c.structure_input then
    return some e
  if let some d := c.calculation_parameters then
    if let some e := validate_calculation_parameters d then
      return some e
  if let some d := c.optimisation_parameters then
    if let some e := validate_optimisation_parameters d then
      return some e
  if let some d := c.qm_parameters then
    let r ← validate_qm_parameters d
    if let some e := r then
      return some e
  if let some d := c.mm_parameters then
    let r ← validate_mm_parameters d
    if let some e := r then
      return some e
  return none

/-- The keyword-argument fragment accumulated by the
`for key in ...: param_str += ...` loops of `chemsh_script_generator`
(lines 632-641 for QM, 657-665 for MM): each entry except `theory` appends
`, key='value'` for strings and `, key=str(value)` otherwise. -/
def theoryParamStr (d : PyDict) : String :=
  d.foldl (fun acc kv =>
    if kv.1 = "theory" then acc
    else match kv.2 with
      | .str s => acc ++ ", " ++ kv.1 ++ "='" ++ s ++ "'"
      | v => acc ++ ", " ++ kv.1 ++ "=" ++ pyStr v) ""

/-- The analogous loop of the optimisation task branch (lines 693-699); here
no key is skipped. -/
def optParamStr (d : PyDict) : String :=
  d.foldl (fun acc kv =>
    match kv.2 with
    | .str s => acc ++ ", " ++ kv.1 ++ "='" ++ s ++ "'"
    | v => acc ++ ", " ++ kv.1 ++ "=" ++ pyStr v) ""

/-- The geometry-construction statements of `chemsh_script_generator`
(lines 613-618): the `Fragment` import plus a `Fragment(coords=...)` call
referencing either the staged structure filename or the canonical temp
filename used for an embedded `StructureData`. -/
def geometrySection (c : CalculationConfig) : String :=
  let fname := match c.structure_input with
    | .singlefile fn => fn
    | .structuredata => FILE_TMP_STRUCTURE
  "from chemsh import Fragment\n" ++ "structure = Fragment(coords='" ++ fname ++ "')\n"

/-- The QM-theory block of `chemsh_script_generator` (lines 622-646).
Returns the emitted text plus the value of the `qm_theory` local variable.
Exceptions model the source faithfully: `.get("theory")` has no default, so a
missing or non-string value crashes `.upper()` with `AttributeError`, and
`ChemShellQMTheory[...]` raises `KeyError` for a non-member.  When both QM and
MM parameters are present (`qmmm_chk`), the constructor call drops the
`frag=structure` binding and re-uses `param_str[1:]`, which keeps the leading
space of the first argument. -/
def qmSection (c : CalculationConfig) :
    Except PyExc (String × Option ChemShellQMTheory) :=
  match c.qm_parameters with
  | none => .ok ("", none)
  | some qp =>
    match pyLookup qp "theory" with
    | some (.str ts) =>
      match qmTheoryOfMember (pyUpper ts) with
      | none => .error .keyError
      | some qt =>
        if qt = .NONE then .ok ("", some qt)
        else
          let key := get_qm_theory_key qt
          let ps := theoryParamStr qp
          if c.mm_parameters.isSome then
            .ok ("from chemsh import " ++ key ++ "\n" ++
                 "qmtheory = " ++ key ++ "(" ++ ps.drop 1 ++ ")\n", some qt)
          else
            .ok ("from chemsh import " ++ key ++ "\n" ++
                 "qmtheory = " ++ key ++ "(frag=structure" ++ ps ++ ")\n", some qt)
    | some _ => .error .attributeError
    | none => .error .attributeError

/-- The MM-theory block of `chemsh_script_generator` (lines 648-673).  The
force-field filename comes from `self.inputs.force_field_file`, whose absence
raises `AttributeError`. -/
def mmSection (c : CalculationConfig) :
    Except PyExc (String × Option ChemShellMMTheory) :=
  match c.mm_parameters with
  | none => .ok ("", none)
  | some mp =>
    match pyLookup mp "theory" with
    | some (.str ts) =>
      match mmTheoryOfMember (pyUpper ts) with
      | none => .error .keyError
      | some mt =>
        if mt = .NONE then .ok ("", some mt)
        else
          match c.force_field_file with
          | none => .error .attributeError
          | some ff =>
            let key := get_mm_theory_key mt
            let ps := theoryParamStr mp
            if c.qm_parameters.isSome then
              .ok ("from chemsh import " ++ key ++ "\n" ++
                   "mmtheory = " ++ key ++ "(ff='" ++ ff ++ "'" ++ ps ++ ")\n", some mt)
            else
              .ok ("from chemsh import " ++ key ++ "\n" ++
                   "mmtheory = " ++ key ++ "(frag=structure, ff='" ++ ff ++ "'" ++
                   ps ++ ")\n", some mt)
    | some _ => .error .attributeError
    | none => .error .attributeError

/-- The QM/MM coupling block and `theory_str` selection of
`chemsh_script_generator` (lines 675-685).  `qmmm_chk` is presence of both
parameter dicts; when active, `self.inputs.qmmm_parameters` is accessed
(raising `AttributeError` when absent) and the `qm_region` list (default `[]`)
is rendered with `str()`.  `elif mm_theory:` tests the truthiness of the local
variable, which is truthy whenever `mm_parameters` was present (enum members,
including `NONE`, are truthy). -/
def couplingSection (c : CalculationConfig) (mmT : Option ChemShellMMTheory) :
    Except PyExc (String × String) :=
  if c.qm_parameters.isSome ∧ c.mm_parameters.isSome then
    match c.qmmm_parameters with
    | none => .error .attributeError
    | some qd =>
      let regionStr := pyStr (pyGetD qd "qm_region" (.list []))
      .ok ("from chemsh import QMMM\n" ++
           "qmmm = QMMM(frag=structure, qm=qmtheory, mm=mmtheory, " ++
           "qm_region=" ++ regionStr ++ ")\n", "qmmm")
  else if mmT.isSome then .ok ("", "mmtheory")
  else .ok ("", "qmtheory")

/-- The task block of `chemsh_script_generator` (lines 687-713): an `Opt` task
forwarding exactly the supplied optimisation parameters when they are present,
otherwise an `SP` task whose `gradients`/`hessian` flags come from
`calculation_parameters.get(..., False)` (an absent dict is replaced by `{}`,
so both flags default to `False`). -/
def taskSection (c : CalculationConfig) (theoryStr : String) : String :=
  match c.optimisation_parameters with
  | some op =>
    "from chemsh import Opt\n" ++ "job = Opt(theory=" ++ theoryStr ++
      optParamStr op ++ ")\n"
  | none =>
    let cp := c.calculation_parameters.getD []
    "from chemsh import SP\n" ++ "job = SP(theory=" ++ theoryStr ++ ", " ++
      "gradients=" ++ pyStr (pyGetD cp "gradients" (.bool false)) ++ ", " ++
      "hessian=" ++ pyStr (pyGetD cp "hessian" (.bool false)) ++ ")\n"

/-- `ChemShellCalculation.chemsh_script_generator` (lines 600-717): the full
rendered input script, or the exception the source would raise.  The section
functions mirror the source's sequential string accumulation. -/
def chemsh_script_generator (c : CalculationConfig) : Except PyExc String :=
  match qmSection c with
  | .error e => .error e
  | .ok (qs, _qmT) =>
    match mmSection c with
    | .error e => .error e
    | .ok (ms, mmT) =>
      match couplingSection c mmT with
      | .error e => .error e
      | .ok (cs, theoryStr) =>
        .ok (geometrySection c ++ qs ++ ms ++ cs ++ taskSection c theoryStr ++
          "job.run()\njob.result.save()\n")

/-- The relevant fields of the `CalcInfo`/`CodeInfo` pair built by
`prepare_for_submission` (lines 719-785), together with the list of files
written into the working directory.  `local_copy_list` entries are modelled as
(source filename, destination filename) pairs. -/
structure CalcInfoModel where
  written_files : List String
  cmdline_params : List String
  stdout_name : String
  retrieve_list : List String
  local_copy_list : List (String × String)
deriving Repr, DecidableEq

/-- Outcome of `prepare_for_submission`: either a `CalcInfo` or an uncaught
exception, recording the files already written when the exception was raised. -/
inductive PrepResult where
  | ok (info : CalcInfoModel)
  | failed (exc : PyExc) (written_files : List String)
deriving Repr, DecidableEq

/-- `ChemShellCalculation.prepare_for_submission` (lines 719-785).  The script
text is generated first (line 735), before any `folder.open`, so a generator
exception escapes with no file written.  `retrieve_list` always holds the
stdout and results filenames and gains the DL-FIND punch filename exactly when
optimisation parameters are present. -/
def prepare_for_submission (c : CalculationConfig) : PrepResult :=
  match chemsh_script_generator c with
  | .error e => .failed e []
  | .ok _script =>
    .ok { written_files :=
            match c.structure_input with
            | .structuredata => [FILE_SCRIPT, FILE_TMP_STRUCTURE]
            | .singlefile _ => [FILE_SCRIPT]
          cmdline_params := [FILE_SCRIPT]
          stdout_name := FILE_STDOUT
          retrieve_list := [FILE_STDOUT, FILE_RESULTS] ++
            (if c.optimisation_parameters.isSome then [FILE_DLFIND] else [])
          local_copy_list :=
            (match c.structure_input with
             | .structuredata => []
             | .singlefile fn => [(fn, fn)]) ++
            (match c.force_field_file with
             | some ff => [(ff, ff)]
             | none => []) }

/-- An output node registered by the parser via `self.out`: the `Float` energy
node, an `ArrayData` holding named arrays, or a `SinglefileData` wrapping a
retrieved file. -/
inductive OutVal where
  | floatNode (q : Rat)
  | arrayNode (arrays : List (String × PyVal))
  | fileNode (filename : String)

/-- Outcome of `ChemShellParser.parse`: the registered outputs (in
registration order) together with the returned exit code, or an uncaught
Python exception. -/
inductive ParseOut where
  | exc (e : PyExc)
  | done (outputs : List (String × OutVal)) (exit_code : Nat)

/-- Registers an output (`self.out(k, v)`); outputs accumulate in order. -/
def outSet (outs : List (String × OutVal)) (k : String) (v : OutVal) :
    List (String × OutVal) :=
  outs ++ [(k, v)]

/-- Looks up a registered output by name (`k in self.outputs`). -/
def outLookup (outs : List (String × OutVal)) (k : String) : Option OutVal :=
  (outs.find? (fun p => p.1 == k)).map Prod.snd

/-- Models `self.outputs["gradients"].set_array("hessian", h)`: the Hessian is
appended to the arrays of the already-registered `gradients` `ArrayData`. -/
def outMergeHessian (outs : List (String × OutVal)) (h : PyVal) :
    List (String × OutVal) :=
  outs.map (fun p =>
    if p.1 == "gradients" then
      match p.2 with
      | .arrayNode arrs => (p.1, OutVal.arrayNode (arrs ++ [("hessian", h)]))
      | v => (p.1, v)
    else p)

mutual

/-- The shape `numpy.array(v)` would infer, or `none` when the nesting is
ragged, in which case `numpy.array` raises `ValueError`.  Scalars (numbers,
strings, booleans, `None`, dicts) become 0-d arrays. -/
def npShape : PyVal → Option (List Nat)
  | .list l => (npShapeElems l).map (fun s => l.length :: s)
  | .tuple l => (npShapeElems l).map (fun s => l.length :: s)
  | _ => some []

/-- The common shape of the elements of a list being converted by
`numpy.array`, or `none` when the elements disagree. -/
def npShapeElems : List PyVal → Option (List Nat)
  | [] => some []
  | [v] => npShape v
  | v :: rest =>
    match npShape v, npShapeElems rest with
    | some s, some s2 => if s = s2 then some s else none
    | _, _ => none

end

/-- Accumulates decimal digits into a natural number. -/
def digitsToNat (l : List Char) : Nat :=
  l.foldl (fun a c => a * 10 + (c.toNat - 48)) 0

/-- Builds the rational `±intpart.fracpart` from its decimal digit lists. -/
def ratOfParts (neg : Bool) (ip fp : List Char) : Rat :=
  let n : Int := Int.ofNat (digitsToNat ip * 10 ^ fp.length + digitsToNat fp)
  let q : Rat := (n : Rat) / ((10 : Rat) ^ fp.length)
  if neg then -q else q

/-- Models Python `float(s)` on a string: an optional sign followed by decimal
digits with an optional fractional part (`none` models the `ValueError` raised
otherwise; exponent notation and `inf`/`nan`, which no claim exercises, are
treated as unparsable). -/
def pyParseFloat (s : String) : Option Rat :=
  let l := s.data
  let signed : Bool × List Char :=
    match l with
    | '-' :: rest => (true, rest)
    | '+' :: rest => (false, rest)
    | _ => (false, l)
  let ip := signed.2.takeWhile Char.isDigit
  let rest := signed.2.drop ip.length
  match rest with
  | [] => if ip.isEmpty then none else some (ratOfParts signed.1 ip [])
  | '.' :: frac =>
    if frac.all Char.isDigit ∧ ¬ (ip.isEmpty ∧ frac.isEmpty) then
      some (ratOfParts signed.1 ip frac)
    else none
  | _ => none

/-- Models the `float(x)` coercion performed when constructing the AiiDA
`Float` output node: numbers and booleans coerce, strings are parsed
(`ValueError` on failure), and containers or `None` raise `TypeError`. -/
def floatCoerce : PyVal → Except PyExc Rat
  | .int n => .ok (n : Rat)
  | .float q => .ok q
  | .bool b => .ok (if b then 1 else 0)
  | .str s =>
    match pyParseFloat s with
    | some q => .ok q
    | none => .error .valueError
  | _ => .error .typeError

/-- Models the subscript `x[0]` applied to the parsed JSON `energy` value:
sequences yield their first element (`IndexError` when empty), strings yield
their first character, dicts look up the non-string key `0` (`KeyError`,
since JSON object keys are strings), and scalars raise `TypeError`. -/
def pyIndex0 : PyVal → Except PyExc PyVal
  | .list [] => .error .indexError
  | .list (v :: _) => .ok v
  | .tuple [] => .error .indexError
  | .tuple (v :: _) => .ok v
  | .str s =>
    match s.data with
    | [] => .error .indexError
    | c :: _ => .ok (.str (String.mk [c]))
  | .pydict _ => .error .keyError
  | _ => .error .typeError

/-- Models Python truthiness, as used by
`if self.node.inputs.calculation_parameters.get("gradients", False):`. -/
def pyTruthy : PyVal → Bool
  | .bool b => b
  | .int n => n != 0
  | .float q => q != 0
  | .str s => ¬ s.isEmpty
  | .list l => ¬ l.isEmpty
  | .tuple l => ¬ l.isEmpty
  | .pydict d => ¬ d.isEmpty
  | .pynone => false

/-- The retrieved-file bundle: filenames paired with their parsed structured
content (only the results artifact's JSON content is ever inspected). -/
abbrev Retrieved := List (String × PyVal)

/-- Filenames of the retrieved bundle (`self.retrieved.list_object_names()`). -/
def retrievedNames (r : Retrieved) : List String := r.map Prod.fst

/-- Step 7 of `ChemShellParser.parse` (parsers.py lines 61-75): when the job
was a geometry optimisation, wrap the DL-FIND punch file as the
`optimised_structure` output or fail with exit code 302; then return success. -/
def parseOptStructure (opt_params : Option PyDict) (retrieved : Retrieved)
    (outs : List (String × OutVal)) : ParseOut :=
  match opt_params with
  | none => .done outs 0
  | some _ =>
    if FILE_DLFIND ∈ retrievedNames retrieved then
      .done (outSet outs "optimised_structure" (.fileNode FILE_DLFIND)) 0
    else .done outs 302

/-- The Hessian stage of `ChemShellParser.parse` (lines 48-59): when the
`hessian` flag is truthy, a missing or ragged `hessian` array yields exit code
304 (`ERROR_MISSING_GRADIENTS`); otherwise the Hessian is merged into the
already-registered `gradients` `ArrayData` when one exists, or registered as a
fresh `gradients` output. -/
def parseHessianStage (cp : PyDict) (opt_params : Option PyDict)
    (retrieved : Retrieved) (results : PyDict)
    (outs : List (String × OutVal)) : ParseOut :=
  if pyTruthy (pyGetD cp "hessian" (.bool false)) then
    match pyLookup results "hessian" with
    | none => .done outs 304
    | some hv =>
      match npShape hv with
      | none => .done outs 304
      | some _ =>
        if (outLookup outs "gradients").isSome then
          parseOptStructure opt_params retrieved (outMergeHessian outs hv)
        else
          parseOptStructure opt_params retrieved
            (outSet outs "gradients" (.arrayNode [("hessian", hv)]))
  else parseOptStructure opt_params retrieved outs

/-- The gradients stage of `ChemShellParser.parse` (lines 37-47): when
`calculation_parameters` is present and its `gradients` flag is truthy, a
missing or ragged `gradients` array yields exit code 304; otherwise the array
is registered as the `gradients` output before the Hessian stage runs. -/
def parseGradients (calc_params : Option PyDict) (opt_params : Option PyDict)
    (retrieved : Retrieved) (results : PyDict)
    (outs : List (String × OutVal)) : ParseOut :=
  match calc_params with
  | none => parseOptStructure opt_params retrieved outs
  | some cp =>
    if pyTruthy (pyGetD cp "gradients" (.bool false)) then
      match pyLookup results "gradients" with
      | none => .done outs 304
      | some gv =>
        match npShape gv with
        | none => .done outs 304
        | some _ =>
          parseHessianStage cp opt_params retrieved results
            (outSet outs "gradients" (.arrayNode [("gradients", gv)]))
    else parseHessianStage cp opt_params retrieved results outs

/-- Steps 3-4 of `ChemShellParser.parse` (lines 24-35): extract
`results["energy"][0]`, register the `energy` output, or return exit code 301
when a `KeyError`/`ValueError` is caught (other exceptions propagate). -/
def parseResults (calc_params : Option PyDict) (opt_params : Option PyDict)
    (retrieved : Retrieved) (results : PyDict) : ParseOut :=
  match pyLookup results "energy" with
  | none => .done [] 301
  | some ev =>
    match pyIndex0 ev with
    | .error .keyError => .done [] 301
    | .error e => .exc e
    | .ok e0 =>
      match floatCoerce e0 with
      | .error .valueError => .done [] 301
      | .error e => .exc e
      | .ok q =>
        parseGradients calc_params opt_params retrieved results
          [("energy", OutVal.floatNode q)]

/-- `ChemShellParser.parse` (parsers.py lines 17-75).  `calc_params` and
`opt_params` model the presence and content of the job's
`calculation_parameters` and `optimisation_parameters` inputs; `retrieved`
models the retrieved-file bundle.  The results artifact must parse to a JSON
object for the subscript `results["energy"]` to be a dict lookup; any other
document type raises `TypeError`. -/
def parse (calc_params : Option PyDict) (opt_params : Option PyDict)
    (retrieved : Retrieved) : ParseOut :=
  if FILE_STDOUT ∈ retrievedNames retrieved then
    if FILE_RESULTS ∈ retrievedNames retrieved then
      match pyLookup retrieved FILE_RESULTS with
      | some (.pydict results) => parseResults calc_params opt_params retrieved results
      | some _ => .exc .typeError
      | none => .exc .keyError
    else .done [] 303
  else .done [] 300

/-- Whether `pat` occurs as a contiguous run of `l` (naive scan). -/
def listOccurs (pat : List Char) : List Char → Bool
  | [] => pat.isEmpty
  | c :: rest => pat.isPrefixOf (c :: rest) || listOccurs pat rest

/-- Whether `pat` occurs as a substring of `s`. -/
def strOccurs (pat s : String) : Bool := listOccurs pat.data s.data

/-- A minimal configuration: a structure file and nothing else (no theory, no
task parameters). -/
def cfgBare : CalculationConfig := { structure_input := .singlefile "water.xyz" }

/-- A configuration whose QM parameters select the `NONE` theory interface and
which has no MM theory. -/
def cfgQmNone : CalculationConfig :=
  { structure_input := .singlefile "water.xyz"
    qm_parameters := some [("theory", .str "NONE")] }

/-- The script `chemsh_script_generator` renders for `cfgBare` and
`cfgQmNone`: the single-point task statement references `qmtheory`, yet no
statement assigning `qmtheory` is emitted. -/
def scriptBare : String :=
  "from chemsh import Fragment\nstructure = Fragment(coords='water.xyz')\n" ++
  "from chemsh import SP\njob = SP(theory=qmtheory, gradients=False, hessian=False)\n" ++
  "job.run()\njob.result.save()\n"

/-- A configuration with both a QM and an MM theory but no `qmmm_parameters`. -/
def cfgQmmmMissing : CalculationConfig :=
  { structure_input := .singlefile "water.xyz"
    qm_parameters := some [("theory", .str "NWChem")]
    mm_parameters := some [("theory", .str "DL_POLY")]
    force_field_file := some "butanol.ff" }

/-- Calculation parameters requesting both gradients and Hessian. -/
def cpBoth : PyDict := [("gradients", .bool true), ("hessian", .bool true)]

/-- Calculation parameters requesting only gradients. -/
def cpGrad : PyDict := [("gradients", .bool true)]

/-- A retrieved bundle holding the stdout file and a results artifact with the
given JSON record. -/
def retWith (results : PyDict) : Retrieved :=
  [(FILE_STDOUT, .pynone), (FILE_RESULTS, .pydict results)]

/-- The `CalcInfo` produced for `cfgBare`. -/
def infoBare : CalcInfoModel :=
  { written_files := [FILE_SCRIPT]
    cmdline_params := [FILE_SCRIPT]
    stdout_name := FILE_STDOUT
    retrieve_list := [FILE_STDOUT, FILE_RESULTS]
    local_copy_list := [("water.xyz", "water.xyz")] }

theorem drop_length_sub_eq_iff_suffix (t l : List Char) :
    l.drop (l.length - t.length) = t ↔ t <:+ l := by
  constructor
  · intro h
    refine ⟨l.take (l.length - t.length), ?_⟩
    conv_rhs => rw [← List.take_append_drop (l.length - t.length) l]
    rw [h]
  · rintro ⟨p, rfl⟩
    rw [List.length_append, Nat.add_sub_cancel, List.drop_left]

theorem pySliceLast_eq_iff (fn t : String) (n : Nat) (hn : t.data.length = n) :
    pySliceLast fn n = t ↔ t.data <:+ fn.data := by
  subst hn
  rw [pySliceLast, String.ext_iff]
  exact drop_length_sub_eq_iff_suffix t.data fn.data

/-- C9: a file-reference structure input passes validation exactly when its
filename ends in `.xyz`, `.pun` or `.cjson`; any other filename is rejected. -/
theorem C9_structure_file_extension (fn : String) :
    validate_structure_file (.singlefile fn) = none ↔
      (".xyz".data <:+ fn.data ∨ ".pun".data <:+ fn.data ∨ ".cjson".data <:+ fn.data) := by
  have h4 := pySliceLast_eq_iff fn ".xyz" 4 rfl
  have hp := pySliceLast_eq_iff fn ".pun" 4 rfl
  have h6 := pySliceLast_eq_iff fn ".cjson" 6 rfl
  show (if pySliceLast fn 4 ∈ [".xyz", ".pun"] then none
        else if pySliceLast fn 6 = ".cjson" then none
        else some VErr.invalidStructureFile) = none ↔ _
  split_ifs with hA hB
  · refine iff_of_true rfl ?_
    rcases List.mem_cons.mp hA with h | h
    · exact Or.inl (h4.mp h)
    · exact Or.inr (Or.inl (hp.mp (by simpa using h)))
  · exact iff_of_true rfl (Or.inr (Or.inr (h6.mp hB)))
  · refine iff_of_false (by simp) ?_
    rintro (h | h | h)
    · exact hA (List.mem_cons.mpr (Or.inl (h4.mpr h)))
    · exact hA (List.mem_cons.mpr (Or.inr (by simp [hp.mpr h])))
    · exact hB (h6.mpr h)

/-- Witness for C9 at a concrete accepted filename. -/
theorem C9_witness : ".xyz".data <:+ "water.xyz".data ∨
    ".pun".data <:+ "water.xyz".data ∨ ".cjson".data <:+ "water.xyz".data :=
  (C9_structure_file_extension "water.xyz").mp rfl

/-- C8: script rendering is a pure function of the configuration — rendering
the same configuration twice yields byte-identical script text. -/
theorem C8_render_deterministic (c : CalculationConfig) :
    chemsh_script_generator c = chemsh_script_generator c := rfl

/-- C2 counterexample: with both a QM and an MM theory set and `qmmm`
parameters absent, every input validator passes (no `MissingQmmmRegion` — or
any — configuration error is raised); the job instead dies with an uncaught
`AttributeError` inside script generation. -/
theorem C2_counterexample :
    validateConfig cfgQmmmMissing = .ok none ∧
      prepare_for_submission cfgQmmmMissing = .failed .attributeError [] :=
  ⟨rfl, rfl⟩

/-- C2 (amended): no validator enforces the presence of `qmmm_parameters`;
when both theories are set and the QM/MM options are absent, script generation
raises an exception, and — since the script is generated before any
`folder.open` — this happens before any file is written. -/
theorem C2_qmmm_missing_raises (c : CalculationConfig)
    (h1 : c.qm_parameters.isSome) (h2 : c.mm_parameters.isSome)
    (h3 : c.qmmm_parameters = none) :
    ∃ e, prepare_for_submission c = .failed e [] := by
  suffices hgen : ∃ e, chemsh_script_generator c = .error e by
    obtain ⟨e, he⟩ := hgen
    refine ⟨e, ?_⟩
    unfold prepare_for_submission
    rw [he]
  have hcoup : ∀ mmT, couplingSection c mmT = .error .attributeError := by
    intro mmT
    unfold couplingSection
    rw [if_pos ⟨h1, h2⟩, h3]
  unfold chemsh_script_generator
  cases hq : qmSection c with
  | error e => exact ⟨e, rfl⟩
  | ok p =>
    obtain ⟨qs, qmT⟩ := p
    cases hm : mmSection c with
    | error e => exact ⟨e, rfl⟩
    | ok p2 =>
      obtain ⟨ms, mmT⟩ := p2
      exact ⟨.attributeError, by simp only [hcoup]⟩

/-- Witness for C2 at the concrete configuration `cfgQmmmMissing`. -/
theorem C2_witness : ∃ e, prepare_for_submission cfgQmmmMissing = .failed e [] :=
  C2_qmmm_missing_raises cfgQmmmMissing rfl rfl rfl

/-- C5: the retrieve list always contains the stdout filename and the results
filename, and contains the DL-FIND structure-punch filename exactly when
optimisation parameters are present. -/
theorem C5_retrieve_list (c : CalculationConfig) (info : CalcInfoModel)
    (h : prepare_for_submission c = .ok info) :
    FILE_STDOUT ∈ info.retrieve_list ∧ FILE_RESULTS ∈ info.retrieve_list ∧
      (FILE_DLFIND ∈ info.retrieve_list ↔ c.optimisation_parameters.isSome) := by
  unfold prepare_for_submission at h
  split at h
  · exact PrepResult.noConfusion h
  · cases h
    refine ⟨List.mem_append_left _ (by decide), List.mem_append_left _ (by decide), ?_⟩
    dsimp only
    cases hopt : c.optimisation_parameters.isSome
    · decide
    · decide

/-- Witness for C5 at the concrete configuration `cfgBare`. -/
theorem C5_witness :
    FILE_STDOUT ∈ infoBare.retrieve_list ∧ FILE_RESULTS ∈ infoBare.retrieve_list ∧
      (FILE_DLFIND ∈ infoBare.retrieve_list ↔ cfgBare.optimisation_parameters.isSome) :=
  C5_retrieve_list cfgBare infoBare rfl

/-- C6: a theory-parameter mapping with a recognised theory interface and any
key outside that interface's allowed-key schema is rejected regardless of the
key's value, and the structured error cites the offending key together with
the full list of legal keys (first conjunct: QM options; second: MM options). -/
theorem C6_unknown_keys_rejected :
    (∀ (d : PyDict) (k ts : String),
      pyGetD d "theory" (.str "") = .str ts →
      pyUpper ts ∈ qmTheoryMembers →
      k ∈ pyKeys d →
      k ∉ get_valid_qm_paramater_keys.map Prod.fst →
      ∃ bad, validate_qm_parameters d =
          .ok (some (.invalidKeys bad (get_valid_qm_paramater_keys.map Prod.fst))) ∧
        k ∈ bad) ∧
    (∀ (d : PyDict) (k ts : String),
      pyGetD d "theory" (.str "") = .str ts →
      pyUpper ts ∈ mmTheoryMembers →
      k ∈ pyKeys d →
      k ∉ (get_valid_mm_paramater_keys (pyUpper ts)).map Prod.fst →
      ∃ bad, validate_mm_parameters d =
          .ok (some (.invalidKeys bad ((get_valid_mm_paramater_keys (pyUpper ts)).map Prod.fst))) ∧
        k ∈ bad) := by
  constructor
  · intro d k ts hts hmem hk hkbad
    unfold validate_qm_parameters
    rw [hts]
    dsimp only
    rw [if_pos hmem]
    have hin : k ∈ (pyKeys d).filter
        (fun x => decide (x ∉ get_valid_qm_paramater_keys.map Prod.fst)) :=
      List.mem_filter.mpr ⟨hk, decide_eq_true hkbad⟩
    have hne : ¬ ((pyKeys d).filter
        (fun x => decide (x ∉ get_valid_qm_paramater_keys.map Prod.fst))).isEmpty := by
      intro hemp
      rw [List.isEmpty_iff] at hemp
      rw [hemp] at hin
      exact absurd hin (List.not_mem_nil k)
    rw [if_pos hne]
    exact ⟨_, rfl, hin⟩
  · intro d k ts hts hmem hk hkbad
    unfold validate_mm_parameters
    rw [hts]
    dsimp only
    rw [if_pos hmem]
    have hin : k ∈ (pyKeys d).filter
        (fun x => decide (x ∉ (get_valid_mm_paramater_keys (pyUpper ts)).map Prod.fst)) :=
      List.mem_filter.mpr ⟨hk, decide_eq_true hkbad⟩
    have hne : ¬ ((pyKeys d).filter
        (fun x => decide (x ∉ (get_valid_mm_paramater_keys (pyUpper ts)).map Prod.fst))).isEmpty := by
      intro hemp
      rw [List.isEmpty_iff] at hemp
      rw [hemp] at hin
      exact absurd hin (List.not_mem_nil k)
    rw [if_pos hne]
    exact ⟨_, rfl, hin⟩

/-- Witness for C6: `{"theory": "NWChem", "bogus_key": 1}` fails citing
`bogus_key`, and an MM mapping `{"theory": "DL_POLY", "bogus": 1}` fails
citing `bogus`. -/
theorem C6_witness :
    (∃ bad, validate_qm_parameters [("theory", PyVal.str "NWChem"), ("bogus_key", PyVal.int 1)] =
        .ok (some (.invalidKeys bad (get_valid_qm_paramater_keys.map Prod.fst))) ∧
      "bogus_key" ∈ bad) ∧
    (∃ bad, validate_mm_parameters [("theory", PyVal.str "DL_POLY"), ("bogus", PyVal.int 1)] =
        .ok (some (.invalidKeys bad ((get_valid_mm_paramater_keys (pyUpper "DL_POLY")).map Prod.fst))) ∧
      "bogus" ∈ bad) :=
  ⟨C6_unknown_keys_rejected.1 [("theory", PyVal.str "NWChem"), ("bogus_key", PyVal.int 1)]
      "bogus_key" "NWChem" rfl (by decide) (by decide) (by decide),
   C6_unknown_keys_rejected.2 [("theory", PyVal.str "DL_POLY"), ("bogus", PyVal.int 1)]
      "bogus" "DL_POLY" rfl (by decide) (by decide) (by decide)⟩

/-- C7: the closed-value QM options `method` and `scftype` accept a string
exactly when its uppercased form lies in the respective allowed set (so `rhf`
and `RHF` are both accepted); no normalisation beyond uppercasing is applied. -/
theorem C7_closed_value_options :
    (∀ m : String,
      validate_qm_parameters [("theory", .str "NWChem"), ("method", .str m)] = .ok none ↔
        pyUpper m ∈ ["HF", "DFT"]) ∧
    (∀ sc : String,
      validate_qm_parameters [("theory", .str "NWChem"), ("scftype", .str sc)] = .ok none ↔
        pyUpper sc ∈ ["RHF", "UHF", "ROHF", "RKS", "UKS", "ROKS"]) := by
  constructor
  · intro m
    have hred : validate_qm_parameters [("theory", .str "NWChem"), ("method", .str m)] =
        (if pyUpper m ∈ ["HF", "DFT"] then .ok none
         else .ok (some (.invalidMethod (pyUpper m)))) := rfl
    rw [hred]
    by_cases h : pyUpper m ∈ ["HF", "DFT"]
    · simp [h]
    · simp [h]
  · intro sc
    have hred : validate_qm_parameters [("theory", .str "NWChem"), ("scftype", .str sc)] =
        (if pyUpper sc ∈ ["RHF", "UHF", "ROHF", "RKS", "UKS", "ROKS"] then .ok none
         else .ok (some .invalidScftype)) := rfl
    rw [hred]
    by_cases h : pyUpper sc ∈ ["RHF", "UHF", "ROHF", "RKS", "UKS", "ROKS"]
    · simp [h]
    · simp [h]

/-- Witness for C7: lowercase `hf` and `rhf` are accepted. -/
theorem C7_witness :
    validate_qm_parameters [("theory", PyVal.str "NWChem"), ("method", PyVal.str "hf")] = .ok none ∧
    validate_qm_parameters [("theory", PyVal.str "NWChem"), ("scftype", PyVal.str "rhf")] = .ok none :=
  ⟨(C7_closed_value_options.1 "hf").mpr (by decide),
   (C7_closed_value_options.2 "rhf").mpr (by decide)⟩

theorem couplingSection_theoryStr (c : CalculationConfig)
    (mmT : Option ChemShellMMTheory) (cs t : String)
    (h : couplingSection c mmT = .ok (cs, t)) :
    t = "qmtheory" ∨ t = "mmtheory" ∨ t = "qmmm" := by
  unfold couplingSection at h
  split_ifs at h
  · split at h
    · exact Except.noConfusion h
    · cases h
      exact Or.inr (Or.inr rfl)
  · cases h
    exact Or.inr (Or.inl rfl)
  · cases h
    exact Or.inl rfl

/-- C4: whenever neither optimisation parameters nor calculation parameters
are supplied and the script renders, the single-point task statement sets both
the gradients flag and the hessian flag to `False`. -/
theorem C4_sp_default_flags (c : CalculationConfig) (s : String)
    (hop : c.optimisation_parameters = none)
    (hcp : c.calculation_parameters = none)
    (hs : chemsh_script_generator c = .ok s) :
    ∃ pre tstr, (tstr = "qmtheory" ∨ tstr = "mmtheory" ∨ tstr = "qmmm") ∧
      s = pre ++ "from chemsh import SP\n" ++ "job = SP(theory=" ++ tstr ++
        ", " ++ "gradients=" ++ "False" ++ ", " ++ "hessian=" ++ "False" ++ ")\n" ++
        "job.run()\njob.result.save()\n" := by
  unfold chemsh_script_generator at hs
  cases hqm : qmSection c with
  | error e =>
    rw [hqm] at hs
    exact Except.noConfusion hs
  | ok pq =>
    obtain ⟨qs, qmT⟩ := pq
    rw [hqm] at hs
    dsimp only at hs
    cases hmm : mmSection c with
    | error e =>
      rw [hmm] at hs
      exact Except.noConfusion hs
    | ok pm =>
      obtain ⟨ms, mmT⟩ := pm
      rw [hmm] at hs
      dsimp only at hs
      cases hco : couplingSection c mmT with
      | error e =>
        rw [hco] at hs
        exact Except.noConfusion hs
      | ok pc =>
        obtain ⟨cs, theoryStr⟩ := pc
        rw [hco] at hs
        dsimp only at hs
        have htstr := couplingSection_theoryStr c mmT cs theoryStr hco
        cases hs
        have htask : taskSection c theoryStr =
            "from chemsh import SP\n" ++ "job = SP(theory=" ++ theoryStr ++
              ", " ++ "gradients=" ++ "False" ++ ", " ++ "hessian=" ++ "False" ++ ")\n" := by
          unfold taskSection
          rw [hop, hcp]
          rfl
        refine ⟨geometrySection c ++ qs ++ ms ++ cs, theoryStr, htstr, ?_⟩
        rw [htask]
        simp only [String.append_assoc]

/-- Witness for C4 at the concrete configuration `cfgBare`. -/
theorem C4_witness :
    ∃ pre tstr, (tstr = "qmtheory" ∨ tstr = "mmtheory" ∨ tstr = "qmmm") ∧
      scriptBare = pre ++ "from chemsh import SP\n" ++ "job = SP(theory=" ++ tstr ++
        ", " ++ "gradients=" ++ "False" ++ ", " ++ "hessian=" ++ "False" ++ ")\n" ++
        "job.run()\njob.result.save()\n" :=
  C4_sp_default_flags cfgBare scriptBare rfl rfl rfl

/-- C10: with no QM and no MM parameters at all, or with a QM theory of
`NONE` and no MM theory, every validator passes and the script still renders,
but its task statement references the name `qmtheory` while no statement
defining `qmtheory` occurs anywhere in the script. -/
theorem C10_undefined_qmtheory_reference :
    (validateConfig cfgBare = .ok none ∧
      chemsh_script_generator cfgBare = .ok scriptBare ∧
      strOccurs "theory=qmtheory" scriptBare = true ∧
      strOccurs "qmtheory = " scriptBare = false) ∧
    (validateConfig cfgQmNone = .ok none ∧
      chemsh_script_generator cfgQmNone = .ok scriptBare ∧
      strOccurs "theory=qmtheory" scriptBare = true ∧
      strOccurs "qmtheory = " scriptBare = false) :=
  ⟨⟨rfl, rfl, by decide, by decide⟩, ⟨rfl, rfl, by decide, by decide⟩⟩

theorem find?_fst_map_isSome (f : (String × OutVal) → (String × OutVal))
    (hf : ∀ p, (f p).1 = p.1) (l : List (String × OutVal)) (k : String) :
    ((l.map f).find? (fun p => p.1 == k)).isSome =
      (l.find? (fun p => p.1 == k)).isSome := by
  induction l with
  | nil => rfl
  | cons p rest ih =>
    simp only [List.map_cons, List.find?, hf p]
    cases hb : (p.1 == k)
    · simpa using ih
    · rfl

theorem outLookup_outSet_isSome (outs : List (String × OutVal)) (k : String)
    (v : OutVal) (k' : String) (h : (outLookup outs k').isSome) :
    (outLookup (outSet outs k v) k').isSome := by
  unfold outLookup outSet
  unfold outLookup at h
  induction outs with
  | nil => simp at h
  | cons p rest ih =>
    simp only [List.cons_append, List.find?] at h ⊢
    cases hb : (p.1 == k')
    · rw [hb] at h
      simp only at h ⊢
      exact ih h
    · rw [hb] at h
      simp only at h ⊢
      simp

theorem outLookup_merge_isSome (outs : List (String × OutVal)) (hv : PyVal)
    (k : String) :
    (outLookup (outMergeHessian outs hv) k).isSome = (outLookup outs k).isSome := by
  unfold outLookup outMergeHessian
  simp only [Option.isSome_map']
  refine find?_fst_map_isSome _ ?_ outs k
  intro p
  split
  · split <;> rfl
  · rfl

theorem parseOptStructure_spec (op : Option PyDict) (ret : Retrieved)
    (outs outs' : List (String × OutVal)) (code : Nat)
    (h : parseOptStructure op ret outs = .done outs' code)
    (he : (outLookup outs "energy").isSome) :
    (code = 0 ∨ code = 302) ∧ (outLookup outs' "energy").isSome := by
  unfold parseOptStructure at h
  split at h
  · cases h
    exact ⟨Or.inl rfl, he⟩
  · split at h
    · cases h
      exact ⟨Or.inl rfl, outLookup_outSet_isSome outs _ _ _ he⟩
    · cases h
      exact ⟨Or.inr rfl, he⟩

theorem parseHessianStage_spec (cp : PyDict) (op : Option PyDict)
    (ret : Retrieved) (results : PyDict)
    (outs outs' : List (String × OutVal)) (code : Nat)
    (h : parseHessianStage cp op ret results outs = .done outs' code)
    (he : (outLookup outs "energy").isSome) :
    (code = 0 ∨ code = 302 ∨ code = 304) ∧ (outLookup outs' "energy").isSome := by
  unfold parseHessianStage at h
  split at h
  · split at h
    · cases h
      exact ⟨Or.inr (Or.inr rfl), he⟩
    · split at h
      · cases h
        exact ⟨Or.inr (Or.inr rfl), he⟩
      · split at h
        · obtain ⟨hc, hsome⟩ := parseOptStructure_spec _ _ _ _ _ h
            (by rw [outLookup_merge_isSome]; exact he)
          exact ⟨hc.imp id Or.inl, hsome⟩
        · obtain ⟨hc, hsome⟩ := parseOptStructure_spec _ _ _ _ _ h
            (outLookup_outSet_isSome outs _ _ _ he)
          exact ⟨hc.imp id Or.inl, hsome⟩
  · obtain ⟨hc, hsome⟩ := parseOptStructure_spec _ _ _ _ _ h he
    exact ⟨hc.imp id Or.inl, hsome⟩

theorem parseGradients_spec (calc_params op : Option PyDict) (ret : Retrieved)
    (results : PyDict) (outs outs' : List (String × OutVal)) (code : Nat)
    (h : parseGradients calc_params op ret results outs = .done outs' code)
    (he : (outLookup outs "energy").isSome) :
    (code = 0 ∨ code = 302 ∨ code = 304) ∧ (outLookup outs' "energy").isSome := by
  unfold parseGradients at h
  split at h
  · obtain ⟨hc, hsome⟩ := parseOptStructure_spec _ _ _ _ _ h he
    exact ⟨hc.imp id Or.inl, hsome⟩
  · split at h
    · split at h
      · cases h
        exact ⟨Or.inr (Or.inr rfl), he⟩
      · split at h
        · cases h
          exact ⟨Or.inr (Or.inr rfl), he⟩
        · exact parseHessianStage_spec _ _ _ _ _ _ _ h
            (outLookup_outSet_isSome outs _ _ _ he)
    · exact parseHessianStage_spec _ _ _ _ _ _ _ h he

/-- C1 counterexample: gradients are requested, the results artifact holds an
energy but no gradients array, and the parser returns the `MissingGradients`
failure code 304 with the `energy` output already registered — a partial
result alongside a failure signal. -/
theorem C1_counterexample :
    parse (some cpGrad) none (retWith [("energy", PyVal.list [PyVal.float (-75)])]) =
        .done [("energy", OutVal.floatNode (-75))] 304 ∧
      outLookup [("energy", OutVal.floatNode (-75))] "energy" =
        some (OutVal.floatNode (-75)) ∧
      (304 : Nat) ≠ 0 :=
  ⟨rfl, rfl, by decide⟩

/-- C1 (amended): the energy output is never populated alongside the
`StdoutMissing` (300), `MissingFinalEnergy` (301) or `ResultsFileMissing`
(303) failure signals, but whenever the parser returns
`MissingOptimisedStructureFile` (302) or `MissingGradients` (304) the energy
output has already been registered. -/
theorem C1_energy_vs_failure (cp op : Option PyDict) (ret : Retrieved)
    (outs : List (String × OutVal)) (code : Nat)
    (h : parse cp op ret = .done outs code) :
    ((code = 300 ∨ code = 301 ∨ code = 303) → outLookup outs "energy" = none) ∧
    ((code = 302 ∨ code = 304) → (outLookup outs "energy").isSome) := by
  have hempty : ∀ c : Nat, c = 300 ∨ c = 301 ∨ c = 303 →
      ((c = 300 ∨ c = 301 ∨ c = 303) → outLookup [] "energy" = none) ∧
      ((c = 302 ∨ c = 304) → (outLookup ([] : List (String × OutVal)) "energy").isSome) := by
    intro c hc
    refine ⟨fun _ => rfl, fun hh => ?_⟩
    exfalso
    rcases hc with h1 | h1 | h1 <;> rcases hh with h2 | h2 <;> omega
  unfold parse at h
  split at h
  · split at h
    · split at h
      · -- results artifact is a JSON object
        unfold parseResults at h
        split at h
        · cases h
          exact hempty 301 (Or.inr (Or.inl rfl))
        · split at h
          · cases h
            exact hempty 301 (Or.inr (Or.inl rfl))
          · exact ParseOut.noConfusion h
          · split at h
            · cases h
              exact hempty 301 (Or.inr (Or.inl rfl))
            · exact ParseOut.noConfusion h
            · obtain ⟨hc, hsome⟩ := parseGradients_spec _ _ _ _ _ _ _ h rfl
              refine ⟨fun hh => ?_, fun _ => hsome⟩
              exfalso
              rcases hc with h1 | h1 | h1 <;> rcases hh with h2 | h2 | h2 <;> omega
      · exact ParseOut.noConfusion h
      · exact ParseOut.noConfusion h
    · cases h
      exact hempty 303 (Or.inr (Or.inr rfl))
  · cases h
    exact hempty 300 (Or.inl rfl)

/-- Witness for C1 at two concrete parse runs: a 303 failure with no energy
registered, and a 304 failure with the energy output registered. -/
theorem C1_witness :
    outLookup [] "energy" = none ∧
      (outLookup [("energy", OutVal.floatNode 1)] "energy").isSome :=
  ⟨(C1_energy_vs_failure none none [("output.log", PyVal.pynone)] [] 303 rfl).1
      (Or.inr (Or.inr rfl)),
   (C1_energy_vs_failure (some cpGrad) none
      (retWith [("energy", PyVal.list [PyVal.float 1])])
      [("energy", OutVal.floatNode 1)] 304 rfl).2 (Or.inr rfl)⟩

theorem parseGradients_step (cp : PyDict) (op : Option PyDict) (ret : Retrieved)
    (results : PyDict) (outs : List (String × OutVal)) (gv : PyVal)
    (ht : pyTruthy (pyGetD cp "gradients" (.bool false)) = true)
    (hl : pyLookup results "gradients" = some gv)
    (hsh : ∃ s, npShape gv = some s) :
    parseGradients (some cp) op ret results outs =
      parseHessianStage cp op ret results
        (outSet outs "gradients" (.arrayNode [("gradients", gv)])) := by
  obtain ⟨s, hs⟩ := hsh
  unfold parseGradients
  dsimp only
  rw [if_pos ht, hl]
  dsimp only
  rw [hs]

theorem parseHessianStage_missing (cp : PyDict) (op : Option PyDict)
    (ret : Retrieved) (results : PyDict) (outs : List (String × OutVal))
    (ht : pyTruthy (pyGetD cp "hessian" (.bool false)) = true)
    (hl : pyLookup results "hessian" = none) :
    parseHessianStage cp op ret results outs = .done outs 304 := by
  unfold parseHessianStage
  rw [if_pos ht, hl]

theorem parseHessianStage_bad (cp : PyDict) (op : Option PyDict)
    (ret : Retrieved) (results : PyDict) (outs : List (String × OutVal))
    (hv : PyVal)
    (ht : pyTruthy (pyGetD cp "hessian" (.bool false)) = true)
    (hl : pyLookup results "hessian" = some hv)
    (hs : npShape hv = none) :
    parseHessianStage cp op ret results outs = .done outs 304 := by
  unfold parseHessianStage
  rw [if_pos ht, hl]
  dsimp only
  rw [hs]

theorem parseHessianStage_merge (cp : PyDict) (op : Option PyDict)
    (ret : Retrieved) (results : PyDict) (outs : List (String × OutVal))
    (hv : PyVal)
    (ht : pyTruthy (pyGetD cp "hessian" (.bool false)) = true)
    (hl : pyLookup results "hessian" = some hv)
    (hsh : ∃ s, npShape hv = some s)
    (hgr : (outLookup outs "gradients").isSome = true) :
    parseHessianStage cp op ret results outs =
      parseOptStructure op ret (outMergeHessian outs hv) := by
  obtain ⟨s, hs⟩ := hsh
  unfold parseHessianStage
  rw [if_pos ht, hl]
  dsimp only
  rw [hs]
  dsimp only
  rw [if_pos hgr]

/-- C3: when a Hessian is requested, a missing or ragged `hessian` array makes
the parser return exit code 304 — the very `MissingGradients` signal used when
the `gradients` array is missing (third conjunct) — and when both gradients
and Hessian are requested and present, the Hessian is merged into the
already-registered `gradients` array-collection output instead of becoming a
second result object. -/
theorem C3_hessian_failure_and_merge (e : Rat) (g h hbad : PyVal)
    (hg : (npShape g).isSome) (hh : (npShape h).isSome)
    (hb : npShape hbad = none) :
    parse (some cpBoth) none
        (retWith [("energy", .list [.float e]), ("gradients", g)]) =
      .done [("energy", .floatNode e),
             ("gradients", .arrayNode [("gradients", g)])] 304 ∧
    parse (some cpBoth) none
        (retWith [("energy", .list [.float e]), ("gradients", g), ("hessian", hbad)]) =
      .done [("energy", .floatNode e),
             ("gradients", .arrayNode [("gradients", g)])] 304 ∧
    parse (some cpGrad) none (retWith [("energy", .list [.float e])]) =
      .done [("energy", .floatNode e)] 304 ∧
    parse (some cpBoth) none
        (retWith [("energy", .list [.float e]), ("gradients", g), ("hessian", h)]) =
      .done [("energy", .floatNode e),
             ("gradients", .arrayNode [("gradients", g), ("hessian", h)])] 0 := by
  obtain ⟨sg, hsg⟩ := Option.isSome_iff_exists.mp hg
  obtain ⟨sh, hsh⟩ := Option.isSome_iff_exists.mp hh
  refine ⟨?_, ?_, ?_, ?_⟩
  · show parseGradients (some cpBoth) none
      (retWith [("energy", .list [.float e]), ("gradients", g)])
      [("energy", .list [.float e]), ("gradients", g)]
      [("energy", OutVal.floatNode e)] = _
    rw [parseGradients_step cpBoth none
      (retWith [("energy", .list [.float e]), ("gradients", g)])
      [("energy", .list [.float e]), ("gradients", g)]
      [("energy", OutVal.floatNode e)] g rfl rfl ⟨sg, hsg⟩]
    exact parseHessianStage_missing _ _ _ _ _ rfl rfl
  · show parseGradients (some cpBoth) none
      (retWith [("energy", .list [.float e]), ("gradients", g), ("hessian", hbad)])
      [("energy", .list [.float e]), ("gradients", g), ("hessian", hbad)]
      [("energy", OutVal.floatNode e)] = _
    rw [parseGradients_step cpBoth none
      (retWith [("energy", .list [.float e]), ("gradients", g), ("hessian", hbad)])
      [("energy", .list [.float e]), ("gradients", g), ("hessian", hbad)]
      [("energy", OutVal.floatNode e)] g rfl rfl ⟨sg, hsg⟩]
    exact parseHessianStage_bad _ _ _ _ _ hbad rfl rfl hb
  · rfl
  · show parseGradients (some cpBoth) none
      (retWith [("energy", .list [.float e]), ("gradients", g), ("hessian", h)])
      [("energy", .list [.float e]), ("gradients", g), ("hessian", h)]
      [("energy", OutVal.floatNode e)] = _
    rw [parseGradients_step cpBoth none
      (retWith [("energy", .list [.float e]), ("gradients", g), ("hessian", h)])
      [("energy", .list [.float e]), ("gradients", g), ("hessian", h)]
      [("energy", OutVal.floatNode e)] g rfl rfl ⟨sg, hsg⟩]
    rw [parseHessianStage_merge cpBoth none
      (retWith [("energy", .list [.float e]), ("gradients", g), ("hessian", h)])
      [("energy", .list [.float e]), ("gradients", g), ("hessian", h)]
      (outSet [("energy", OutVal.floatNode e)] "gradients"
        (OutVal.arrayNode [("gradients", g)]))
      h rfl rfl ⟨sh, hsh⟩ rfl]
    rfl

/-- Witness for C3 at concrete well-formed and ragged arrays. -/
theorem C3_witness :
    parse (some cpBoth) none
        (retWith [("energy", .list [.float 1]),
                  ("gradients", PyVal.list [PyVal.float 1])]) =
      .done [("energy", .floatNode 1),
             ("gradients", .arrayNode [("gradients", PyVal.list [PyVal.float 1])])] 304 ∧
    parse (some cpBoth) none
        (retWith [("energy", .list [.float 1]),
                  ("gradients", PyVal.list [PyVal.float 1]),
                  ("hessian", PyVal.list [PyVal.int 1, PyVal.list []])]) =
      .done [("energy", .floatNode 1),
             ("gradients", .arrayNode [("gradients", PyVal.list [PyVal.float 1])])] 304 ∧
    parse (some cpGrad) none (retWith [("energy", .list [.float 1])]) =
      .done [("energy", .floatNode 1)] 304 ∧
    parse (some cpBoth) none
        (retWith [("energy", .list [.float 1]),
                  ("gradients", PyVal.list [PyVal.float 1]),
                  ("hessian", PyVal.list [PyVal.float 2])]) =
      .done [("energy", .floatNode 1),
             ("gradients", .arrayNode [("gradients", PyVal.list [PyVal.float 1]),
                                       ("hessian", PyVal.list [PyVal.float 2])])] 0 :=
  C3_hessian_failure_and_merge 1 (PyVal.list [PyVal.float 1])
    (PyVal.list [PyVal.float 2]) (PyVal.list [PyVal.int 1, PyVal.list []])
    rfl rfl rfl

end AiidaChemShell
